import Mathlib

/-!
Verification of the deployment lifecycle controller of the
neo4j-partners/azure-resource-manager-neo4j repository.

The Python sources under `src/deployments/src/` (with the near-identical
`src/localtests/src/` tree) are shallowly embedded below:

* pure functions become Lean functions;
* wall-clock reads (`datetime.now(timezone.utc)`) become explicit `now`/`t0`
  parameters, with timestamps modelled as integers (seconds);
* the durable state store becomes an explicit `List DeploymentState` threaded
  through each operation;
* remote calls (Azure CLI round-trips) become oracle environments passed to
  each function;
* Python exceptions become an `Except PyExc` result type;
* file writes become a trace of file-system operations.
-/

namespace Neo4jDeploy

/-- Python exception values that the embedded code can raise. -/
inductive PyExc where
  | attributeError (msg : String)
  | validationError (msg : String)
  | notFoundError (msg : String)
deriving Repr, DecidableEq

/-- Deployment record, following `DeploymentState` in
`src/deployments/src/models.py` (lines 183-199).  The pydantic model there
declares exactly these fields; in particular it declares no `test_status`
field, so a Python attribute access `deployment.test_status` on such a record
raises `AttributeError` (pydantic `BaseModel` does not allow undeclared
attributes).  `status` and `cleanup_mode` are string-valued: `CleanupMode` is a
`str` enum and `status` a string literal type, and status strings are written
back by unvalidated attribute assignment elsewhere in the code. -/
structure DeploymentState where
  deployment_id : String
  resource_group_name : String
  deployment_name : String
  scenario_name : String
  git_branch : String
  parameter_file_path : String
  created_at : Int
  expires_at : Option Int := none
  cleanup_mode : String
  status : String := "pending"
deriving Repr, DecidableEq

/-- Decision record, following `CleanupDecision` in
`src/deployments/src/cleanup.py` (lines 22-29). -/
structure CleanupDecision where
  deployment_id : String
  resource_group_name : String
  should_cleanup : Bool
  reason : String
  cleanup_mode : String
deriving Repr, DecidableEq

/-- The four members of the `CleanupMode` str-enum in `models.py`. -/
def knownCleanupModes : List String := ["immediate", "on-success", "manual", "scheduled"]

/-- Constructing a `CleanupDecision` runs pydantic validation of its fields:
`cleanup_mode` is declared with the `CleanupMode` enum type, so passing a value
outside the enum raises a `ValidationError`; the remaining fields are plain
strings and booleans and always validate. -/
def mkCleanupDecision (deployment_id resource_group_name : String)
    (should_cleanup : Bool) (reason cleanup_mode : String) :
    Except PyExc CleanupDecision :=
  if knownCleanupModes.contains cleanup_mode then
    .ok ⟨deployment_id, resource_group_name, should_cleanup, reason, cleanup_mode⟩
  else
    .error (.validationError "cleanup_mode: input should be a member of CleanupMode")

/-- Python `force_mode or deployment.cleanup_mode` (cleanup.py line 79): the
explicit argument wins unless it is falsy, which for a string value means
empty. -/
def resolveCleanupMode (force_mode : Option String) (d : DeploymentState) : String :=
  match force_mode with
  | some m => if m = "" then d.cleanup_mode else m
  | none => d.cleanup_mode

/-- CleanupManager.should_cleanup_deployment (cleanup.py lines 64-187), with
the wall-clock read of the scheduled branch passed in as `now`.  Notes kept
from the source:

* the on-success branch first handles `status == "failed"` (line 113) and then
  reads `deployment.test_status` (lines 122-140); `DeploymentState` declares no
  such field, so that attribute access raises `AttributeError`;
* the scheduled not-expired reason elides the floating-point
  remaining-hours rendering of line 176;
* the final fallback (lines 181-187) builds a `CleanupDecision` carrying the
  unresolved mode value, which pydantic validation rejects whenever that value
  lies outside the enum. -/
def should_cleanup_deployment (now : Int) (d : DeploymentState)
    (force_mode : Option String := none) : Except PyExc CleanupDecision :=
  let mode := resolveCleanupMode force_mode d
  if d.status = "deleted" then
    mkCleanupDecision d.deployment_id d.resource_group_name false "Already deleted" mode
  else if mode = "manual" then
    mkCleanupDecision d.deployment_id d.resource_group_name false
      "Manual cleanup mode - requires explicit cleanup command" mode
  else if mode = "immediate" then
    mkCleanupDecision d.deployment_id d.resource_group_name true
      "Immediate cleanup mode" mode
  else if mode = "on-success" then
    if d.status = "failed" then
      mkCleanupDecision d.deployment_id d.resource_group_name false
        "Deployment failed - keeping for debugging" mode
    else
      .error (.attributeError "DeploymentState object has no attribute test_status")
  else if mode = "scheduled" then
    match d.expires_at with
    | none =>
        mkCleanupDecision d.deployment_id d.resource_group_name false
          "No expiration time set" mode
    | some e =>
        if e ≤ now then
          mkCleanupDecision d.deployment_id d.resource_group_name true
            ("Expired at " ++ toString e) mode
        else
          mkCleanupDecision d.deployment_id d.resource_group_name false
            "Not expired yet" mode
  else
    mkCleanupDecision d.deployment_id d.resource_group_name false
      "Unknown cleanup mode" mode

/-- A record with cleanup mode on-success whose deployment failed:
the first on-success guard answers it. -/
def recOnSuccessFailed : DeploymentState :=
  { deployment_id := "dep-0001"
    resource_group_name := "neo4j-test-standalone-v5-a"
    deployment_name := "neo4j-deploy-standalone-v5-a"
    scenario_name := "standalone-v5"
    git_branch := "main"
    parameter_file_path := "params/standalone-v5.json"
    created_at := 0
    expires_at := none
    cleanup_mode := "on-success"
    status := "failed" }

/-- A record with cleanup mode on-success that is still pending, so its
(nonexistent) test result has to be consulted. -/
def recOnSuccessPending : DeploymentState :=
  { recOnSuccessFailed with deployment_id := "dep-0002", status := "pending" }

/-- A record with cleanup mode on-success that is currently deploying. -/
def recOnSuccessDeploying : DeploymentState :=
  { recOnSuccessFailed with deployment_id := "dep-0003", status := "deploying" }

/-- A manual-mode record used to exercise the force-mode override path. -/
def recManualPending : DeploymentState :=
  { recOnSuccessFailed with
    deployment_id := "dep-0004", cleanup_mode := "manual", status := "pending" }

end Neo4jDeploy

namespace Neo4jDeploy

/-- C1.  On a record whose resolved cleanup policy is on-success, the decision
function returns no-cleanup when the deployment status is failed, but on every
other non-deleted status it raises `AttributeError` instead of returning a
decision, because `DeploymentState` (src/deployments/src/models.py lines
183-199) declares no `test_status` field while cleanup.py lines 122-140 read
it.  In particular, for an (unavoidably) unset test status the claimed
`shouldCleanup = false` answer is never produced. -/
theorem onSuccess_reads_missing_test_status :
    should_cleanup_deployment 1000 recOnSuccessFailed none =
      .ok { deployment_id := "dep-0001",
            resource_group_name := "neo4j-test-standalone-v5-a",
            should_cleanup := false,
            reason := "Deployment failed - keeping for debugging",
            cleanup_mode := "on-success" } ∧
    should_cleanup_deployment 1000 recOnSuccessPending none =
      .error (.attributeError "DeploymentState object has no attribute test_status") := by
  constructor <;> rfl

/-- C2.  The cleanup decision function is not total: on an on-success record
that is still deploying it raises `AttributeError` (missing `test_status`
field), and under a cleanup-mode override outside the four known modes the
defensive "Unknown cleanup mode" fallback itself raises a pydantic
`ValidationError` while building the decision record, rather than returning
`shouldCleanup = false`. -/
theorem should_cleanup_not_total :
    should_cleanup_deployment 500 recOnSuccessDeploying none =
      .error (.attributeError "DeploymentState object has no attribute test_status") ∧
    should_cleanup_deployment 500 recManualPending (some "bogus-mode") =
      .error (.validationError "cleanup_mode: input should be a member of CleanupMode") := by
  constructor <;> rfl

/-- C9.  For a record whose resolved cleanup policy is scheduled and whose
status is not deleted, the decision is returned without error and recommends
cleanup exactly when an expiration time is set and now is at or past it;
moving the evaluation time from one second before the expiration time to the
expiration time itself flips the decision. -/
theorem scheduled_decision (now : Int) (d : DeploymentState) (fm : Option String)
    (hmode : resolveCleanupMode fm d = "scheduled")
    (hstatus : d.status ≠ "deleted") :
    (∃ dec, should_cleanup_deployment now d fm = .ok dec ∧
      (dec.should_cleanup = true ↔ ∃ e, d.expires_at = some e ∧ e ≤ now)) ∧
    (∀ e, d.expires_at = some e →
      (∃ dec, should_cleanup_deployment e d fm = .ok dec ∧ dec.should_cleanup = true) ∧
      (∃ dec, should_cleanup_deployment (e - 1) d fm = .ok dec ∧
        dec.should_cleanup = false)) := by
  constructor
  · cases hexp : d.expires_at with
    | none =>
        have h : should_cleanup_deployment now d fm =
            .ok ⟨d.deployment_id, d.resource_group_name, false,
                 "No expiration time set", "scheduled"⟩ := by
          simp [should_cleanup_deployment, hmode, hstatus, hexp, mkCleanupDecision, knownCleanupModes]
        exact ⟨_, h, by simp [hexp]⟩
    | some e =>
        by_cases hle : e ≤ now
        · have h : should_cleanup_deployment now d fm =
              .ok ⟨d.deployment_id, d.resource_group_name, true,
                   "Expired at " ++ toString e, "scheduled"⟩ := by
            simp [should_cleanup_deployment, hmode, hstatus, hexp, hle, mkCleanupDecision, knownCleanupModes]
          exact ⟨_, h, by simp [hexp]; exact hle⟩
        · have h : should_cleanup_deployment now d fm =
              .ok ⟨d.deployment_id, d.resource_group_name, false,
                   "Not expired yet", "scheduled"⟩ := by
            simp [should_cleanup_deployment, hmode, hstatus, hexp, hle, mkCleanupDecision, knownCleanupModes]
          exact ⟨_, h, by simp [hexp]; omega⟩
  · intro e hexp
    constructor
    · have h : should_cleanup_deployment e d fm =
          .ok ⟨d.deployment_id, d.resource_group_name, true,
               "Expired at " ++ toString e, "scheduled"⟩ := by
        simp [should_cleanup_deployment, hmode, hstatus, hexp, mkCleanupDecision, knownCleanupModes]
      exact ⟨_, h, rfl⟩
    · have hlt : ¬ e ≤ e - 1 := by omega
      have h : should_cleanup_deployment (e - 1) d fm =
          .ok ⟨d.deployment_id, d.resource_group_name, false,
               "Not expired yet", "scheduled"⟩ := by
        simp [should_cleanup_deployment, hmode, hstatus, hexp, hlt, mkCleanupDecision, knownCleanupModes]
      exact ⟨_, h, rfl⟩

/-- A scheduled record expiring at time 100, for instantiating the scheduled
decision theorem. -/
def recScheduled : DeploymentState :=
  { recOnSuccessFailed with
    deployment_id := "dep-0005", cleanup_mode := "scheduled", status := "succeeded",
    expires_at := some 100 }

/-- Witness for the scheduled-mode theorem at a concrete record and time. -/
theorem scheduled_decision_witness :
    (∃ dec, should_cleanup_deployment 100 recScheduled none = .ok dec ∧
      (dec.should_cleanup = true ↔ ∃ e, recScheduled.expires_at = some e ∧ e ≤ 100)) ∧
    (∀ e, recScheduled.expires_at = some e →
      (∃ dec, should_cleanup_deployment e recScheduled none = .ok dec ∧
        dec.should_cleanup = true) ∧
      (∃ dec, should_cleanup_deployment (e - 1) recScheduled none = .ok dec ∧
        dec.should_cleanup = false)) :=
  scheduled_decision 100 recScheduled none (by rfl) (by decide)

end Neo4jDeploy

namespace Neo4jDeploy

/-- ResourceGroupManager.get_deployment_state (resource_groups.py lines
246-260): linear scan of the loaded record list, first match by id. -/
def get_deployment_state (deployment_id : String)
    (store : List DeploymentState) : Option DeploymentState :=
  store.find? (fun s => s.deployment_id == deployment_id)

/-- ResourceGroupManager.save_deployment_state (resource_groups.py lines
201-224), record-list part: drop any record with the same id, then append the
new one (the upsert keyed by id). -/
def save_deployment_state (state : DeploymentState)
    (store : List DeploymentState) : List DeploymentState :=
  (store.filter (fun s => s.deployment_id != state.deployment_id)) ++ [state]

/-- ResourceGroupManager.update_deployment_status (resource_groups.py lines
262-277).  The `Except` result type records that a Python method may raise; as
the body shows, this one never does: when the id is unknown,
`get_deployment_state` returns None, the `if state:` guard is not taken, and
the method silently returns without touching the store.  When the id is known,
the status string is written by plain attribute assignment (no validation of
the value and no transition check) and the record is saved back. -/
def update_deployment_status (deployment_id status : String)
    (store : List DeploymentState) : Except PyExc (List DeploymentState) :=
  match get_deployment_state deployment_id store with
  | some state => .ok (save_deployment_state { state with status := status } store)
  | none => .ok store

/-- The store that results from `update_deployment_status`; total because the
source method never raises (see `update_deployment_status`), so the error arm
is unreachable. -/
def update_status_store (deployment_id status : String)
    (store : List DeploymentState) : List DeploymentState :=
  match update_deployment_status deployment_id status store with
  | .ok s => s
  | .error _ => store

/-- A succeeded record sitting in the store, for the store-update
counterexample. -/
def recStored : DeploymentState :=
  { recOnSuccessFailed with
    deployment_id := "dep-0010", cleanup_mode := "manual", status := "succeeded" }

/-- C4 counterexample.  Calling updateStatus with an id absent from the store
does not fail with a NotFoundError (nor any other exception): it returns
normally and leaves the store unchanged. -/
theorem update_status_unknown_id_no_error :
    update_deployment_status "no-such-id" "failed" [recStored] = .ok [recStored] ∧
    ∀ e : PyExc, update_deployment_status "no-such-id" "failed" [recStored] ≠ .error e := by
  refine ⟨by rfl, ?_⟩
  intro e h
  rw [show update_deployment_status "no-such-id" "failed" [recStored] = .ok [recStored] from rfl] at h
  exact Except.noConfusion h

/-- C4 amended.  updateStatus with an unknown id is a silent no-op (normal
return, store unchanged, no exception); with a known id it always succeeds,
replacing the found record's status by the given string — any string at all,
with no transition-validity check — via the id-keyed upsert. -/
theorem update_status_amended (deployment_id status : String)
    (store : List DeploymentState) :
    (get_deployment_state deployment_id store = none →
      update_deployment_status deployment_id status store = .ok store) ∧
    (∀ s, get_deployment_state deployment_id store = some s →
      update_deployment_status deployment_id status store =
        .ok (save_deployment_state { s with status := status } store)) := by
  constructor
  · intro h
    simp [update_deployment_status, h]
  · intro s h
    simp [update_deployment_status, h]

/-- Witness for the amended store-update theorem: a no-op on the empty store
and an unvalidated status write on a singleton store. -/
theorem update_status_amended_witness :
    update_deployment_status "dep-0010" "totally-invalid-status" [recStored] =
      .ok [{ recStored with status := "totally-invalid-status" }] := by
  have h := (update_status_amended "dep-0010" "totally-invalid-status" [recStored]).2
    recStored (by rfl)
  simpa [save_deployment_state, recStored] using h

/-- File-system operations performed by the persistence helpers. -/
inductive FsOp where
  | mkdirp (dir : String)
  | openTrunc (path : String)
  | writeAll (path : String) (content : String)
  | rename (src dst : String)
deriving Repr, DecidableEq

/-- Parent directory of a path, as `Path.parent`. -/
def parentDir (p : String) : String :=
  String.intercalate "/" ((p.splitOn "/").dropLast)

/-- utils.save_json (src/localtests/src/utils.py lines 168-179): ensure the
parent directory exists, then `open(path, "w")` — a truncating open of the
final path itself — and stream the serialised payload into it.  `data`
abstracts the `json.dumps` serialisation of the record collection. -/
def save_json (data : String) (path : String) : List FsOp :=
  [.mkdirp (parentDir path), .openTrunc path, .writeAll path data]

/-- save_deployment_state persists the whole record collection by delegating
to `save_json` on the state file (resource_groups.py lines 216-220); `payload`
abstracts the serialised deployments document. -/
def save_deployment_state_fs (payload : String) (state_file : String) : List FsOp :=
  save_json payload state_file

/-- An operation touches the named final file directly when it truncates it or
writes into it. -/
def touchesDirectly (final : String) (op : FsOp) : Bool :=
  match op with
  | .openTrunc p => p == final
  | .writeAll p _ => p == final
  | _ => false

/-- Atomic-replace write discipline for producing `final`: the trace never
opens or writes the final path directly, and its last operation renames some
other path onto it. -/
def atomicReplaceDiscipline (trace : List FsOp) (final : String) : Bool :=
  trace.all (fun op => ! touchesDirectly final op) &&
    (match trace.getLast? with
     | some (.rename _ dst) => dst == final
     | _ => false)

/-- C5 counterexample.  Persisting the record collection to the state file
does not follow the atomic-replace discipline: the trace truncates and writes
the durable file in place. -/
theorem save_state_not_atomic_counterexample :
    atomicReplaceDiscipline
      (save_deployment_state_fs "serialized-deployments" "state/active-deployments.json")
      "state/active-deployments.json" = false := by
  rfl

/-- C5 amended.  Every persistence of the record collection opens the durable
file itself with a truncating write and streams the payload into it in place —
there is no write-to-temporary-then-rename step, so the write is not performed
under an atomic-replace discipline and an interruption between the truncating
open and the completed write leaves a partial file. -/
theorem save_state_writes_in_place (payload state_file : String) :
    save_deployment_state_fs payload state_file =
      [.mkdirp (parentDir state_file), .openTrunc state_file,
       .writeAll state_file payload] ∧
    FsOp.openTrunc state_file ∈ save_deployment_state_fs payload state_file ∧
    atomicReplaceDiscipline (save_deployment_state_fs payload state_file)
      state_file = false := by
  refine ⟨rfl, by simp [save_deployment_state_fs, save_json], ?_⟩
  simp [atomicReplaceDiscipline, save_deployment_state_fs, save_json, touchesDirectly]

end Neo4jDeploy

namespace Neo4jDeploy

/-- Result record, following `CleanupResult` in cleanup.py (lines 32-39). -/
structure CleanupResult where
  deployment_id : String
  resource_group_name : String
  success : Bool
  deleted_at : Option Int := none
  error_message : Option String := none
deriving Repr, DecidableEq

/-- Summary record, following `CleanupSummary` in cleanup.py (lines 42-49). -/
structure CleanupSummary where
  total_candidates : Nat
  cleaned_up : Nat
  failed : Nat
  skipped : Nat
  results : List CleanupResult := []
deriving Repr, DecidableEq

/-- External collaborators of the cleanup manager: the managed-registry query
(`list_managed_resource_groups`, the groups carrying the managed-by tag,
abstracted to their names) and the remote destroy call
(`delete_resource_group`), whose Boolean result reports whether the delete was
accepted. -/
structure CleanupEnv where
  managed : List String
  delete_ok : String → Bool

/-- The refusal message built at cleanup.py lines 222-225. -/
def refusalMessage (rg : String) : String :=
  "Resource group " ++ rg ++
    " is not managed by neo4j-deploy. Refusing to delete for safety. Use --force to override."

/-- The error message reported when the remote destroy call fails
(cleanup.py line 262). -/
def remoteDeleteFailureMessage : String := "Failed to delete resource group"

/-- CleanupManager._verify_managed_resource_group (cleanup.py lines 265-276):
membership of the name in the managed registry. -/
def verify_managed_resource_group (env : CleanupEnv) (rg_name : String) : Bool :=
  env.managed.contains rg_name

/-- The refusal reason is a different text from the remote-failure message:
their lengths already differ for every resource-group name. -/
theorem refusalMessage_ne_remote (rg : String) :
    refusalMessage rg ≠ remoteDeleteFailureMessage := by
  intro h
  have hl := congrArg String.length h
  simp only [refusalMessage, remoteDeleteFailureMessage, String.length_append] at hl
  have h1 : ("Resource group " : String).length = 15 := rfl
  have h2 : (" is not managed by neo4j-deploy. Refusing to delete for safety. Use --force to override." : String).length = 88 := rfl
  have h3 : ("Failed to delete resource group" : String).length = 31 := rfl
  omega

/-- Outcome of one `cleanup_deployment` call: the returned result, the record
after any status mutation, the store after any save, and whether the remote
destroy call was issued. -/
structure CleanupExec where
  result : CleanupResult
  deployment : DeploymentState
  store : List DeploymentState
  destroy_called : Bool
deriving Repr, DecidableEq

/-- CleanupManager.cleanup_deployment (cleanup.py lines 189-263), with the
wall-clock read for `deleted_at` passed as `now` and the state store threaded
explicitly.  A dry run succeeds without touching anything; without force, an
unmanaged resource group is refused before any destroy call; otherwise the
destroy call is issued (under force this happens regardless of the registry —
the extra registry lookup of line 236 only prints a warning), and on success
the record is marked deleted and saved back to the store.  `no_wait` is
forwarded to the remote delete and does not affect the modelled outcome. -/
def cleanup_deployment (env : CleanupEnv) (now : Int) (store : List DeploymentState)
    (d : DeploymentState) (dry_run no_wait force : Bool) : CleanupExec :=
  let rg_name := d.resource_group_name
  if dry_run then
    { result := { deployment_id := d.deployment_id, resource_group_name := rg_name,
                  success := true },
      deployment := d, store := store, destroy_called := false }
  else if force = false ∧ verify_managed_resource_group env rg_name = false then
    { result := { deployment_id := d.deployment_id, resource_group_name := rg_name,
                  success := false, error_message := some (refusalMessage rg_name) },
      deployment := d, store := store, destroy_called := false }
  else if env.delete_ok rg_name then
    let updated := { d with status := "deleted" }
    { result := { deployment_id := d.deployment_id, resource_group_name := rg_name,
                  success := true, deleted_at := some now },
      deployment := updated, store := save_deployment_state updated store,
      destroy_called := true }
  else
    { result := { deployment_id := d.deployment_id, resource_group_name := rg_name,
                  success := false, error_message := some remoteDeleteFailureMessage },
      deployment := d, store := store, destroy_called := true }

/-- C8.  Cleaning up a deployment whose resource group is absent from the
managed registry, without force and not as a dry run, is refused: the destroy
call is never issued, the record and the store are untouched, the result
reports failure, and the refusal reason differs from the text produced when a
remote destroy call genuinely errors. -/
theorem cleanup_refuses_unmanaged (env : CleanupEnv) (now : Int)
    (store : List DeploymentState) (d : DeploymentState) (no_wait : Bool)
    (hunmanaged : verify_managed_resource_group env d.resource_group_name = false) :
    (cleanup_deployment env now store d false no_wait false).destroy_called = false ∧
    (cleanup_deployment env now store d false no_wait false).store = store ∧
    (cleanup_deployment env now store d false no_wait false).deployment = d ∧
    (cleanup_deployment env now store d false no_wait false).result.success = false ∧
    (cleanup_deployment env now store d false no_wait false).result.error_message =
      some (refusalMessage d.resource_group_name) ∧
    refusalMessage d.resource_group_name ≠ remoteDeleteFailureMessage := by
  have hx : cleanup_deployment env now store d false no_wait false =
      { result := { deployment_id := d.deployment_id,
                    resource_group_name := d.resource_group_name,
                    success := false,
                    error_message := some (refusalMessage d.resource_group_name) },
        deployment := d, store := store, destroy_called := false } := by
    simp [cleanup_deployment, hunmanaged]
  refine ⟨?_, ?_, ?_, ?_, ?_, refusalMessage_ne_remote d.resource_group_name⟩ <;>
    rw [hx]

/-- A registry that manages one unrelated resource group, plus a destroy
oracle that would accept every delete. -/
def envUnmanaged : CleanupEnv :=
  { managed := ["neo4j-test-some-other-rg"], delete_ok := fun _ => true }

/-- Witness for the unmanaged-refusal theorem on a concrete record whose
resource group is not in the registry. -/
theorem cleanup_refuses_unmanaged_witness :
    (cleanup_deployment envUnmanaged 7 [recStored] recStored false true false).destroy_called
        = false ∧
    (cleanup_deployment envUnmanaged 7 [recStored] recStored false true false).store
        = [recStored] ∧
    (cleanup_deployment envUnmanaged 7 [recStored] recStored false true false).deployment
        = recStored ∧
    (cleanup_deployment envUnmanaged 7 [recStored] recStored false true false).result.success
        = false ∧
    (cleanup_deployment envUnmanaged 7 [recStored] recStored false true false).result.error_message
        = some (refusalMessage recStored.resource_group_name) ∧
    refusalMessage recStored.resource_group_name ≠ remoteDeleteFailureMessage :=
  cleanup_refuses_unmanaged envUnmanaged 7 [recStored] recStored true (by decide)

end Neo4jDeploy

namespace Neo4jDeploy

/-- Decision evaluation loop of CleanupManager.cleanup_deployments
(cleanup.py lines 374-389): with force, every record receives a fixed
cleanup-everything decision (built like any other `CleanupDecision`, so
pydantic still validates its fields); without force, the per-record decision
function is consulted.  A raised exception propagates out of the loop. -/
def evaluate_decisions (now : Int) (force : Bool) :
    List DeploymentState → Except PyExc (List (DeploymentState × CleanupDecision))
  | [] => .ok []
  | d :: rest =>
    match (if force then
            mkCleanupDecision d.deployment_id d.resource_group_name true
              "Force flag specified" d.cleanup_mode
           else should_cleanup_deployment now d none) with
    | .error e => .error e
    | .ok dec =>
      match evaluate_decisions now force rest with
      | .error e => .error e
      | .ok tail => .ok ((d, dec) :: tail)

/-- One step of the cleanup execution loop (cleanup.py lines 445-453): run
`cleanup_deployment` against the store produced so far and append the
outcome. -/
def cleanup_batch_step (env : CleanupEnv) (now : Int) (dry_run no_wait force : Bool)
    (acc : List DeploymentState × List CleanupExec)
    (p : DeploymentState × CleanupDecision) :
    List DeploymentState × List CleanupExec :=
  let ex := cleanup_deployment env now acc.1 p.1 dry_run no_wait force
  (ex.store, acc.2 ++ [ex])

/-- Outcome of one batch cleanup: the summary returned to the caller, the
final store, the evaluated decision plan, and the per-record executions. -/
structure BatchExec where
  summary : CleanupSummary
  store : List DeploymentState
  decisions : List (DeploymentState × CleanupDecision)
  execs : List CleanupExec
deriving Repr

/-- CleanupManager.cleanup_deployments (cleanup.py lines 344-476): empty input
returns an all-zero summary; otherwise decisions are evaluated (forced or per
record), only positive decisions are executed, a confirmation prompt guards
the non-force non-dry-run path (modelled by `confirm_answer`), and the
executions are folded over the store.  Skipped counts records whose decision
was negative; the cancelled and nothing-to-do branches skip everything. -/
def cleanup_deployments (env : CleanupEnv) (now : Int) (store : List DeploymentState)
    (deployments : List DeploymentState)
    (dry_run force no_wait confirm_answer : Bool) : Except PyExc BatchExec :=
  if deployments.isEmpty then
    .ok { summary := { total_candidates := 0, cleaned_up := 0, failed := 0, skipped := 0 },
          store := store, decisions := [], execs := [] }
  else
    match evaluate_decisions now force deployments with
    | .error e => .error e
    | .ok decisions =>
      let to_cleanup := decisions.filter (fun p => p.2.should_cleanup)
      if to_cleanup.isEmpty then
        .ok { summary := { total_candidates := deployments.length, cleaned_up := 0,
                           failed := 0, skipped := deployments.length },
              store := store, decisions := decisions, execs := [] }
      else if force = false ∧ dry_run = false ∧ confirm_answer = false then
        .ok { summary := { total_candidates := deployments.length, cleaned_up := 0,
                           failed := 0, skipped := deployments.length },
              store := store, decisions := decisions, execs := [] }
      else
        let run := to_cleanup.foldl (cleanup_batch_step env now dry_run no_wait force)
          (store, [])
        let execs := run.2
        .ok { summary := { total_candidates := deployments.length,
                           cleaned_up := execs.countP (fun ex => ex.result.success),
                           failed := execs.countP (fun ex => ! ex.result.success),
                           skipped := deployments.length - to_cleanup.length,
                           results := execs.map (fun ex => ex.result) },
              store := run.1, decisions := decisions, execs := execs }

/-- The forced decision attached to every record by the force branch. -/
def forcedPair (d : DeploymentState) : DeploymentState × CleanupDecision :=
  (d, { deployment_id := d.deployment_id, resource_group_name := d.resource_group_name,
        should_cleanup := true, reason := "Force flag specified",
        cleanup_mode := d.cleanup_mode })

/-- Under force, decision evaluation never consults the per-record decision
function and yields the forced plan for every record. -/
theorem evaluate_decisions_force (now : Int) :
    ∀ ds : List DeploymentState,
      (∀ d ∈ ds, knownCleanupModes.contains d.cleanup_mode = true) →
      evaluate_decisions now true ds = .ok (ds.map forcedPair) := by
  intro ds
  induction ds with
  | nil => intro _; rfl
  | cons d rest ih =>
    intro h
    have hd : d.cleanup_mode ∈ knownCleanupModes := by
      simpa using h d (List.mem_cons_self d rest)
    have hr := ih (fun x hx => h x (List.mem_cons_of_mem _ hx))
    simp [evaluate_decisions, mkCleanupDecision, hd, hr, forcedPair]

/-- With force and no dry run, every execution of the batch loop issues the
destroy call, whatever the managed registry contains. -/
theorem cleanup_deployment_force_destroys (env : CleanupEnv) (now : Int)
    (st : List DeploymentState) (d : DeploymentState) (no_wait : Bool) :
    (cleanup_deployment env now st d false no_wait true).destroy_called = true := by
  by_cases hok : env.delete_ok d.resource_group_name <;>
    simp [cleanup_deployment, hok]

/-- The execution fold appends one outcome per selected record, and with force
every appended outcome issued its destroy call. -/
theorem cleanup_batch_force_execs (env : CleanupEnv) (now : Int) (no_wait : Bool) :
    ∀ (l : List (DeploymentState × CleanupDecision))
      (st : List DeploymentState) (acc : List CleanupExec),
      (l.foldl (cleanup_batch_step env now false no_wait true) (st, acc)).2.length =
        acc.length + l.length ∧
      ∀ ex ∈ (l.foldl (cleanup_batch_step env now false no_wait true) (st, acc)).2,
        ex ∈ acc ∨ ex.destroy_called = true := by
  intro l
  induction l with
  | nil =>
      intro st acc
      exact ⟨by simp, fun ex hx => Or.inl hx⟩
  | cons p rest ih =>
      intro st acc
      have hstep := ih (cleanup_deployment env now st p.1 false no_wait true).store
        (acc ++ [cleanup_deployment env now st p.1 false no_wait true])
      have hfold : (p :: rest).foldl (cleanup_batch_step env now false no_wait true) (st, acc) =
          rest.foldl (cleanup_batch_step env now false no_wait true)
            ((cleanup_deployment env now st p.1 false no_wait true).store,
             acc ++ [cleanup_deployment env now st p.1 false no_wait true]) := by
        simp [List.foldl_cons, cleanup_batch_step]
      rw [hfold]
      constructor
      · rw [hstep.1]
        simp [List.length_append]
        omega
      · intro ex hx
        rcases hstep.2 ex hx with hmem | hdes
        · rcases List.mem_append.mp hmem with h1 | h2
          · exact Or.inl h1
          · right
            have hin : ex = cleanup_deployment env now st p.1 false no_wait true := by
              simpa using h2
            rw [hin]
            exact cleanup_deployment_force_destroys env now st p.1 no_wait
        · exact Or.inr hdes

end Neo4jDeploy

namespace Neo4jDeploy

/-- C10.  With force, batch cleanup never consults the per-record decision
function: every input record — whatever its status (already deleted included)
and whatever its cleanup mode (manual included) — is selected for deletion
with the reason "Force flag specified", and every execution issues the remote
destroy call irrespective of the managed registry, whose safety check is
bypassed.  The mode hypothesis only states that the records carry one of the
four enum modes, as every pydantic-constructed record does. -/
theorem cleanup_force_bypasses_decisions (env : CleanupEnv) (now : Int)
    (store ds : List DeploymentState) (no_wait confirm : Bool)
    (hmodes : ∀ d ∈ ds, knownCleanupModes.contains d.cleanup_mode = true) :
    ∃ b, cleanup_deployments env now store ds false true no_wait confirm = .ok b ∧
      b.decisions = ds.map forcedPair ∧
      b.execs.length = ds.length ∧
      ∀ ex ∈ b.execs, ex.destroy_called = true := by
  by_cases hempty : ds.isEmpty
  · have hnil : ds = [] := by
      cases ds with
      | nil => rfl
      | cons d rest => simp at hempty
    subst hnil
    exact ⟨_, rfl, by simp, rfl, by simp⟩
  · have hempty' : ds.isEmpty = false := by
      cases h : ds.isEmpty with
      | false => rfl
      | true => exact absurd h hempty
    have hdec := evaluate_decisions_force now ds hmodes
    have hfilter : (ds.map forcedPair).filter (fun p => p.2.should_cleanup) =
        ds.map forcedPair := by
      apply List.filter_eq_self.mpr
      intro p hp
      rcases List.mem_map.mp hp with ⟨d, _, rfl⟩
      rfl
    have hne : (ds.map forcedPair).isEmpty = false := by
      cases ds with
      | nil => simp at hempty'
      | cons d rest => simp
    refine ⟨⟨⟨ds.length,
        ((ds.map forcedPair).foldl
          (cleanup_batch_step env now false no_wait true) (store, [])).2.countP
          (fun ex => ex.result.success),
        ((ds.map forcedPair).foldl
          (cleanup_batch_step env now false no_wait true) (store, [])).2.countP
          (fun ex => ! ex.result.success),
        ds.length - (ds.map forcedPair).length,
        ((ds.map forcedPair).foldl
          (cleanup_batch_step env now false no_wait true) (store, [])).2.map
          (fun ex => ex.result)⟩,
        ((ds.map forcedPair).foldl
          (cleanup_batch_step env now false no_wait true) (store, [])).1,
        ds.map forcedPair,
        ((ds.map forcedPair).foldl
          (cleanup_batch_step env now false no_wait true) (store, [])).2⟩,
          ?_, rfl, ?_, ?_⟩
    · simp only [cleanup_deployments, hempty', hdec, hfilter, hne]
      simp
    · have hlen := (cleanup_batch_force_execs env now no_wait (ds.map forcedPair) store []).1
      simpa using hlen
    · intro ex hx
      rcases (cleanup_batch_force_execs env now no_wait
          (ds.map forcedPair) store []).2 ex hx with h0 | h1
      · simp at h0
      · exact h1

/-- Concrete batch mixing an already-deleted record and a manual-mode record,
for instantiating the force theorem. -/
def recDeletedManual : DeploymentState :=
  { recOnSuccessFailed with
    deployment_id := "dep-0020", cleanup_mode := "manual", status := "deleted" }

/-- A registry managing neither record, with a destroy oracle accepting every
delete. -/
def envForce : CleanupEnv := { managed := [], delete_ok := fun _ => true }

/-- Witness for the force theorem: even for a deleted-status record and a
manual-mode record, both absent from the managed registry, force selects both
with the forced reason and destroys both. -/
theorem cleanup_force_bypasses_decisions_witness :
    ∃ b, cleanup_deployments envForce 5 [recDeletedManual]
        [recDeletedManual, recManualPending] false true true false = .ok b ∧
      b.decisions = [recDeletedManual, recManualPending].map forcedPair ∧
      b.execs.length = [recDeletedManual, recManualPending].length ∧
      ∀ ex ∈ b.execs, ex.destroy_called = true :=
  cleanup_force_bypasses_decisions envForce 5 [recDeletedManual]
    [recDeletedManual, recManualPending] true false (by decide)

end Neo4jDeploy

namespace Neo4jDeploy

/-- Remote side of the monitor: `get_deployment_status` queries Azure for the
provisioning state of (resource group, deployment name); the oracle may answer
differently on different ticks and returns none when the CLI call fails. -/
structure MonitorEnv where
  remote : Nat → String → String → Option String

/-- Accumulated monitoring state: the records still active after the processed
prefix of a tick, the threaded store, the id-to-final-status map being built,
and the log of remote status queries as (tick, deployment id) pairs. -/
structure MonitorAcc where
  active : List DeploymentState
  store : List DeploymentState
  finals : List (String × String)
  queries : List (Nat × String)
deriving Repr, DecidableEq

/-- Body of the per-record monitoring loop (monitor.py lines 314-408 of the
simple branch; the live-dashboard branch, lines 251-296, runs the same
decision logic).  At tick `k` the wall clock reads `t0 + k * poll_interval`;
`start_times[deployment_id]` was set to `t0` for every record at monitor entry
(lines 234-237), so elapsed time is measured from monitor entry, not from the
record's `created_at`.  A record past the timeout is recorded as Timeout,
written to the store as failed and dropped without a status query; otherwise
the remote is queried and a terminal answer (Succeeded, Failed or Canceled)
resolves the record, every other answer keeps it active.  The AKS per-server
progress listing and all console rendering are presentation only and have no
modelled effect. -/
def monitorStep (env : MonitorEnv) (timeout poll_interval t0 : Int) (k : Nat)
    (acc : MonitorAcc) (state : DeploymentState) : MonitorAcc :=
  let current_time := t0 + (k : Int) * poll_interval
  let elapsed := current_time - t0
  if elapsed > timeout then
    { acc with
      store := update_status_store state.deployment_id "failed" acc.store,
      finals := acc.finals ++ [(state.deployment_id, "Timeout")] }
  else
    let queried := { acc with queries := acc.queries ++ [(k, state.deployment_id)] }
    match env.remote k state.resource_group_name state.deployment_name with
    | some s =>
        if s = "Succeeded" ∨ s = "Failed" ∨ s = "Canceled" then
          { queried with
            store := update_status_store state.deployment_id
              (if s = "Succeeded" then "succeeded" else "failed") queried.store,
            finals := queried.finals ++ [(state.deployment_id, s)] }
        else
          { queried with active := queried.active ++ [state] }
    | none => { queried with active := queried.active ++ [state] }

/-- One full tick over the snapshot of the active set. -/
def monitorTick (env : MonitorEnv) (timeout poll_interval t0 : Int) (k : Nat)
    (active : List DeploymentState) (store : List DeploymentState)
    (finals : List (String × String)) (queries : List (Nat × String)) : MonitorAcc :=
  active.foldl (monitorStep env timeout poll_interval t0 k)
    { active := [], store := store, finals := finals, queries := queries }

/-- Result of a monitoring run: the final-status map returned to the caller,
the final store, the query log, whatever remained active when the fuel ran
out, and whether the loop finished (the while loop of the source has no a
priori bound, so the embedding carries fuel; a completed run is one that
drained its active set). -/
structure MonitorResult where
  finals : List (String × String)
  store : List DeploymentState
  queries : List (Nat × String)
  active : List DeploymentState
  completed : Bool
deriving Repr, DecidableEq

/-- The while loop of monitor_deployments: stop as soon as the active set is
empty, otherwise run a tick and sleep `poll_interval` (modelled by the tick
index advancing the clock). -/
def monitorLoop (env : MonitorEnv) (timeout poll_interval t0 : Int) :
    Nat → Nat → List DeploymentState → List DeploymentState →
    List (String × String) → List (Nat × String) → MonitorResult
  | 0, _, active, store, finals, queries =>
    { finals := finals, store := store, queries := queries,
      active := active, completed := active.isEmpty }
  | fuel + 1, k, active, store, finals, queries =>
    if active.isEmpty then
      { finals := finals, store := store, queries := queries,
        active := active, completed := true }
    else
      let t := monitorTick env timeout poll_interval t0 k active store finals queries
      monitorLoop env timeout poll_interval t0 fuel (k + 1)
        t.active t.store t.finals t.queries

/-- Python dict insertion for `{state.deployment_id: state for state in ...}`:
a repeated key replaces the stored value in place, a new key is appended. -/
def dictInsert (m : List DeploymentState) (r : DeploymentState) :
    List DeploymentState :=
  if m.any (fun s => s.deployment_id == r.deployment_id) then
    m.map (fun s => if s.deployment_id == r.deployment_id then r else s)
  else m ++ [r]

/-- The initial active set of monitor_deployments (monitor.py line 240): the
input records keyed by deployment id, a later duplicate replacing an earlier
one. -/
def activeInit (records : List DeploymentState) : List DeploymentState :=
  records.foldl dictInsert []

/-- DeploymentMonitor.monitor_deployments (monitor.py lines 205-417): build the
active set and the per-record start times (all equal to the entry time `t0`),
then poll until every record is resolved.  The store holds whatever the state
file contained, which is not consulted by the loop. -/
def monitor_deployments (env : MonitorEnv) (poll_interval timeout t0 : Int)
    (records store : List DeploymentState) (fuel : Nat) : MonitorResult :=
  monitorLoop env timeout poll_interval t0 fuel 0 (activeInit records) store [] []

/-- A record whose status in the store is already terminal. -/
def recTerminalStored : DeploymentState :=
  { recOnSuccessFailed with
    deployment_id := "dep-0030", cleanup_mode := "manual", status := "succeeded" }

/-- A remote oracle that reports every deployment Succeeded. -/
def envAllSucceeded : MonitorEnv := { remote := fun _ _ _ => some "Succeeded" }

/-- C3 counterexample.  Monitoring a record whose stored status is already
terminal (succeeded) still issues a remote status query for it on the first
tick: the query log of the run is not empty, contradicting the claim that the
status is returned immediately with no remote query. -/
theorem monitor_queries_terminal_record :
    (monitor_deployments envAllSucceeded 30 1800 0
        [recTerminalStored] [recTerminalStored] 2).queries = [(0, "dep-0030")] ∧
    ¬ ((monitor_deployments envAllSucceeded 30 1800 0
        [recTerminalStored] [recTerminalStored] 2).queries.filter
          (fun q => q.2 == "dep-0030") = []) := by
  constructor
  · rfl
  · intro h
    rw [show (monitor_deployments envAllSucceeded 30 1800 0
        [recTerminalStored] [recTerminalStored] 2).queries = [(0, "dep-0030")] from rfl] at h
    simp at h

/-- A record submitted long before the monitor starts. -/
def recOldSubmission : DeploymentState :=
  { recOnSuccessFailed with
    deployment_id := "dep-0031", cleanup_mode := "manual", status := "deploying",
    created_at := 0 }

/-- C6 counterexample.  A record whose elapsed time since its own submission
(`created_at = 0`, monitor entry at `t0 = 100000`, timeout 1800) far exceeds
the timeout is not timed out: on the first tick the monitor issues a remote
query for it and returns the remote terminal status, because the timeout clock
starts at monitor entry, not at submission. -/
theorem monitor_ignores_submission_age :
    (100000 : Int) - recOldSubmission.created_at > 1800 ∧
    (monitor_deployments envAllSucceeded 30 1800 100000
        [recOldSubmission] [recOldSubmission] 2).finals = [("dep-0031", "Succeeded")] ∧
    ¬ ((monitor_deployments envAllSucceeded 30 1800 100000
        [recOldSubmission] [recOldSubmission] 2).queries = []) := by
  refine ⟨by decide, rfl, ?_⟩
  intro h
  rw [show (monitor_deployments envAllSucceeded 30 1800 100000
      [recOldSubmission] [recOldSubmission] 2).queries = [(0, "dep-0031")] from rfl] at h
  simp at h

end Neo4jDeploy

namespace Neo4jDeploy

/-- One monitoring step only ever appends to the query log. -/
theorem monitorStep_queries_append (env : MonitorEnv) (timeout poll_interval t0 : Int)
    (k : Nat) (acc : MonitorAcc) (r : DeploymentState) :
    ∃ l, (monitorStep env timeout poll_interval t0 k acc r).queries =
      acc.queries ++ l := by
  by_cases h1 : timeout < (k : Int) * poll_interval
  · exact ⟨[], by simp [monitorStep, h1]⟩
  · cases hr : env.remote k r.resource_group_name r.deployment_name with
    | none => exact ⟨[(k, r.deployment_id)], by simp [monitorStep, h1, hr]⟩
    | some s =>
        by_cases h2 : s = "Succeeded" ∨ s = "Failed" ∨ s = "Canceled" <;>
          exact ⟨[(k, r.deployment_id)], by simp [monitorStep, h1, hr, h2]⟩

/-- One monitoring step only ever appends to the final-status map. -/
theorem monitorStep_finals_append (env : MonitorEnv) (timeout poll_interval t0 : Int)
    (k : Nat) (acc : MonitorAcc) (r : DeploymentState) :
    ∃ l, (monitorStep env timeout poll_interval t0 k acc r).finals =
      acc.finals ++ l := by
  by_cases h1 : timeout < (k : Int) * poll_interval
  · exact ⟨[(r.deployment_id, "Timeout")], by simp [monitorStep, h1]⟩
  · cases hr : env.remote k r.resource_group_name r.deployment_name with
    | none => exact ⟨[], by simp [monitorStep, h1, hr]⟩
    | some s =>
        by_cases h2 : s = "Succeeded" ∨ s = "Failed" ∨ s = "Canceled"
        · exact ⟨[(r.deployment_id, s)], by simp [monitorStep, h1, hr, h2]⟩
        · exact ⟨[], by simp [monitorStep, h1, hr, h2]⟩

/-- A whole tick only ever appends to the query log and the final-status
map. -/
theorem monitorFold_append (env : MonitorEnv) (timeout poll_interval t0 : Int)
    (k : Nat) :
    ∀ (l : List DeploymentState) (acc : MonitorAcc),
      (∃ q, (l.foldl (monitorStep env timeout poll_interval t0 k) acc).queries =
        acc.queries ++ q) ∧
      (∃ f, (l.foldl (monitorStep env timeout poll_interval t0 k) acc).finals =
        acc.finals ++ f) := by
  intro l
  induction l with
  | nil => exact fun acc => ⟨⟨[], by simp⟩, ⟨[], by simp⟩⟩
  | cons r rest ih =>
      intro acc
      obtain ⟨⟨q2, hq2⟩, ⟨f2, hf2⟩⟩ :=
        ih (monitorStep env timeout poll_interval t0 k acc r)
      obtain ⟨q1, hq1⟩ := monitorStep_queries_append env timeout poll_interval t0 k acc r
      obtain ⟨f1, hf1⟩ := monitorStep_finals_append env timeout poll_interval t0 k acc r
      constructor
      · exact ⟨q1 ++ q2, by simp [List.foldl_cons, hq2, hq1]⟩
      · exact ⟨f1 ++ f2, by simp [List.foldl_cons, hf2, hf1]⟩

/-- The monitoring loop only ever appends to the query log and the
final-status map. -/
theorem monitorLoop_append (env : MonitorEnv) (timeout poll_interval t0 : Int) :
    ∀ (fuel k : Nat) (active store : List DeploymentState)
      (finals : List (String × String)) (queries : List (Nat × String)),
      (∃ q, (monitorLoop env timeout poll_interval t0 fuel k active store
        finals queries).queries = queries ++ q) ∧
      (∃ f, (monitorLoop env timeout poll_interval t0 fuel k active store
        finals queries).finals = finals ++ f) := by
  intro fuel
  induction fuel with
  | zero => exact fun k a st f q => ⟨⟨[], by simp [monitorLoop]⟩, ⟨[], by simp [monitorLoop]⟩⟩
  | succ fuel ih =>
      intro k active store finals queries
      by_cases hact : active.isEmpty
      · exact ⟨⟨[], by simp [monitorLoop, hact]⟩, ⟨[], by simp [monitorLoop, hact]⟩⟩
      · have hstep : monitorLoop env timeout poll_interval t0 (fuel + 1) k active store
            finals queries =
            monitorLoop env timeout poll_interval t0 fuel (k + 1)
              (monitorTick env timeout poll_interval t0 k active store finals queries).active
              (monitorTick env timeout poll_interval t0 k active store finals queries).store
              (monitorTick env timeout poll_interval t0 k active store finals queries).finals
              (monitorTick env timeout poll_interval t0 k active store finals queries).queries := by
          simp [monitorLoop, hact]
        obtain ⟨⟨q2, hq2⟩, ⟨f2, hf2⟩⟩ := ih (k + 1)
          (monitorTick env timeout poll_interval t0 k active store finals queries).active
          (monitorTick env timeout poll_interval t0 k active store finals queries).store
          (monitorTick env timeout poll_interval t0 k active store finals queries).finals
          (monitorTick env timeout poll_interval t0 k active store finals queries).queries
        obtain ⟨⟨q1, hq1⟩, ⟨f1, hf1⟩⟩ := monitorFold_append env timeout poll_interval t0 k
          active { active := [], store := store, finals := finals, queries := queries }
        constructor
        · refine ⟨q1 ++ q2, ?_⟩
          rw [hstep, hq2]
          show (monitorTick env timeout poll_interval t0 k active store finals
            queries).queries ++ q2 = queries ++ (q1 ++ q2)
          rw [monitorTick] at *
          rw [hq1]
          simp
        · refine ⟨f1 ++ f2, ?_⟩
          rw [hstep, hf2]
          show (monitorTick env timeout poll_interval t0 k active store finals
            queries).finals ++ f2 = finals ++ (f1 ++ f2)
          rw [monitorTick] at *
          rw [hf1]
          simp

end Neo4jDeploy

namespace Neo4jDeploy

/-- Within one tick that is not past the timeout, every active record is
queried, and a terminal remote answer lands in the final-status map. -/
theorem monitorFold_hit (env : MonitorEnv) (timeout poll_interval t0 : Int)
    (k : Nat) (htime : ¬ timeout < (k : Int) * poll_interval)
    (r : DeploymentState) (s : String)
    (hremote : env.remote k r.resource_group_name r.deployment_name = some s)
    (hterm : s = "Succeeded" ∨ s = "Failed" ∨ s = "Canceled") :
    ∀ (l : List DeploymentState) (acc : MonitorAcc), r ∈ l →
      (k, r.deployment_id) ∈ (l.foldl (monitorStep env timeout poll_interval t0 k) acc).queries ∧
      (r.deployment_id, s) ∈ (l.foldl (monitorStep env timeout poll_interval t0 k) acc).finals := by
  intro l
  induction l with
  | nil => intro acc h; exact absurd h (List.not_mem_nil r)
  | cons x rest ih =>
      intro acc hmem
      rcases List.mem_cons.mp hmem with hx | hrest
      · subst hx
        have hstepq : (k, r.deployment_id) ∈
            (monitorStep env timeout poll_interval t0 k acc r).queries := by
          simp [monitorStep, htime, hremote, hterm]
        have hstepf : (r.deployment_id, s) ∈
            (monitorStep env timeout poll_interval t0 k acc r).finals := by
          simp [monitorStep, htime, hremote, hterm]
        obtain ⟨⟨q, hq⟩, ⟨f, hf⟩⟩ := monitorFold_append env timeout poll_interval t0 k
          rest (monitorStep env timeout poll_interval t0 k acc r)
        constructor
        · rw [List.foldl_cons, hq]
          exact List.mem_append_left _ hstepq
        · rw [List.foldl_cons, hf]
          exact List.mem_append_left _ hstepf
      · rw [List.foldl_cons]
        exact ih (monitorStep env timeout poll_interval t0 k acc x) hrest

/-- C3 amended.  The monitor does not consult the store's recorded status:
whatever status a record carries in the store (terminal ones included), the
record enters the active set and receives a remote status query on the first
tick, and when the remote answers with a terminal state the returned map holds
that remotely polled status.  The store argument and the record's own status
field are arbitrary here and play no role. -/
theorem monitor_polls_every_active_record (env : MonitorEnv)
    (poll_interval timeout t0 : Int) (records store : List DeploymentState)
    (fuel : Nat) (r : DeploymentState) (s : String)
    (hr : r ∈ activeInit records)
    (htimeout : 0 ≤ timeout)
    (hfuel : fuel ≠ 0)
    (hremote : env.remote 0 r.resource_group_name r.deployment_name = some s)
    (hterm : s = "Succeeded" ∨ s = "Failed" ∨ s = "Canceled") :
    (0, r.deployment_id) ∈
      (monitor_deployments env poll_interval timeout t0 records store fuel).queries ∧
    (r.deployment_id, s) ∈
      (monitor_deployments env poll_interval timeout t0 records store fuel).finals := by
  obtain ⟨fuel, rfl⟩ : ∃ n, fuel = n + 1 := by
    cases fuel with
    | zero => exact absurd rfl hfuel
    | succ n => exact ⟨n, rfl⟩
  have hact : (activeInit records).isEmpty = false := by
    cases h : activeInit records with
    | nil => rw [h] at hr; exact absurd hr (List.not_mem_nil r)
    | cons a l => rfl
  have htime : ¬ timeout < ((0 : Nat) : Int) * poll_interval := by
    simp
    omega
  have hhit := monitorFold_hit env timeout poll_interval t0 0 htime r s hremote hterm
    (activeInit records)
    { active := [], store := store, finals := [], queries := [] } hr
  have hloop := monitorLoop_append env timeout poll_interval t0 fuel 1
    (monitorTick env timeout poll_interval t0 0 (activeInit records) store [] []).active
    (monitorTick env timeout poll_interval t0 0 (activeInit records) store [] []).store
    (monitorTick env timeout poll_interval t0 0 (activeInit records) store [] []).finals
    (monitorTick env timeout poll_interval t0 0 (activeInit records) store [] []).queries
  obtain ⟨⟨q2, hq2⟩, ⟨f2, hf2⟩⟩ := hloop
  have hrun : monitor_deployments env poll_interval timeout t0 records store (fuel + 1) =
      monitorLoop env timeout poll_interval t0 fuel 1
        (monitorTick env timeout poll_interval t0 0 (activeInit records) store [] []).active
        (monitorTick env timeout poll_interval t0 0 (activeInit records) store [] []).store
        (monitorTick env timeout poll_interval t0 0 (activeInit records) store [] []).finals
        (monitorTick env timeout poll_interval t0 0 (activeInit records) store [] []).queries := by
    simp [monitor_deployments, monitorLoop, hact]
  constructor
  · rw [hrun, hq2]
    exact List.mem_append_left _ hhit.1
  · rw [hrun, hf2]
    exact List.mem_append_left _ hhit.2

/-- Witness for the amended monitoring theorem: the record stored as succeeded
is polled at tick 0 and resolved from the remote answer. -/
theorem monitor_polls_every_active_record_witness :
    (0, recTerminalStored.deployment_id) ∈
      (monitor_deployments envAllSucceeded 30 1800 0
        [recTerminalStored] [recTerminalStored] 2).queries ∧
    (recTerminalStored.deployment_id, "Succeeded") ∈
      (monitor_deployments envAllSucceeded 30 1800 0
        [recTerminalStored] [recTerminalStored] 2).finals :=
  monitor_polls_every_active_record envAllSucceeded 30 1800 0
    [recTerminalStored] [recTerminalStored] 2 recTerminalStored "Succeeded"
    (by decide) (by decide) (by decide) rfl (Or.inl rfl)

end Neo4jDeploy

namespace Neo4jDeploy

/-- On a tick whose elapsed time is past the timeout, the fold times out every
record it processes: nothing stays active, every record is written to the
store as failed and mapped to Timeout, and not a single query is appended. -/
theorem monitorFold_timeout (env : MonitorEnv) (timeout poll_interval t0 : Int)
    (k : Nat) (htime : timeout < (k : Int) * poll_interval) :
    ∀ (l : List DeploymentState) (acc : MonitorAcc),
      l.foldl (monitorStep env timeout poll_interval t0 k) acc =
        { active := acc.active,
          store := l.foldl (fun st r => update_status_store r.deployment_id "failed" st)
            acc.store,
          finals := acc.finals ++ l.map (fun r => (r.deployment_id, "Timeout")),
          queries := acc.queries } := by
  intro l
  induction l with
  | nil => intro acc; simp
  | cons r rest ih =>
      intro acc
      rw [List.foldl_cons]
      have hstep : monitorStep env timeout poll_interval t0 k acc r =
          { active := acc.active,
            store := update_status_store r.deployment_id "failed" acc.store,
            finals := acc.finals ++ [(r.deployment_id, "Timeout")],
            queries := acc.queries } := by
        simp [monitorStep, htime]
      rw [hstep, ih]
      simp

/-- Every query appended by a tick happened at that tick's index, on a tick
not past the timeout. -/
theorem monitorFold_queries_bound (env : MonitorEnv) (timeout poll_interval t0 : Int)
    (k : Nat) :
    ∀ (l : List DeploymentState) (acc : MonitorAcc) (q : Nat × String),
      q ∈ (l.foldl (monitorStep env timeout poll_interval t0 k) acc).queries →
      q ∈ acc.queries ∨ (q.1 = k ∧ ¬ timeout < (k : Int) * poll_interval) := by
  intro l
  induction l with
  | nil => intro acc q hq; exact Or.inl hq
  | cons r rest ih =>
      intro acc q hq
      rw [List.foldl_cons] at hq
      rcases ih (monitorStep env timeout poll_interval t0 k acc r) q hq with hacc | hk
      · by_cases htime : timeout < (k : Int) * poll_interval
        · left
          have hsq : (monitorStep env timeout poll_interval t0 k acc r).queries =
              acc.queries := by
            simp [monitorStep, htime]
          rwa [hsq] at hacc
        · have hsq : (monitorStep env timeout poll_interval t0 k acc r).queries =
              acc.queries ++ [(k, r.deployment_id)] := by
            obtain ⟨q1, hq1⟩ :=
              monitorStep_queries_append env timeout poll_interval t0 k acc r
            cases hr : env.remote k r.resource_group_name r.deployment_name with
            | none => simp [monitorStep, htime, hr]
            | some s =>
                by_cases h2 : s = "Succeeded" ∨ s = "Failed" ∨ s = "Canceled" <;>
                  simp [monitorStep, htime, hr, h2]
          rw [hsq] at hacc
          rcases List.mem_append.mp hacc with h1 | h2
          · exact Or.inl h1
          · right
            have : q = (k, r.deployment_id) := by simpa using h2
            exact ⟨by rw [this], htime⟩
      · exact Or.inr hk

/-- Across the whole loop, every query in the log happened at a tick whose
elapsed time was within the timeout. -/
theorem monitorLoop_queries_bound (env : MonitorEnv) (timeout poll_interval t0 : Int) :
    ∀ (fuel k : Nat) (active store : List DeploymentState)
      (finals : List (String × String)) (queries : List (Nat × String)),
      (∀ q ∈ queries, ((q : Nat × String).1 : Int) * poll_interval ≤ timeout) →
      ∀ q ∈ (monitorLoop env timeout poll_interval t0 fuel k active store
        finals queries).queries,
        ((q : Nat × String).1 : Int) * poll_interval ≤ timeout := by
  intro fuel
  induction fuel with
  | zero =>
      intro k active store finals queries hinv q hq
      simp only [monitorLoop] at hq
      exact hinv q hq
  | succ fuel ih =>
      intro k active store finals queries hinv q hq
      by_cases hact : active.isEmpty
      · simp only [monitorLoop, hact, if_pos] at hq
        exact hinv q hq
      · have hstep : monitorLoop env timeout poll_interval t0 (fuel + 1) k active store
            finals queries =
            monitorLoop env timeout poll_interval t0 fuel (k + 1)
              (monitorTick env timeout poll_interval t0 k active store finals queries).active
              (monitorTick env timeout poll_interval t0 k active store finals queries).store
              (monitorTick env timeout poll_interval t0 k active store finals queries).finals
              (monitorTick env timeout poll_interval t0 k active store finals queries).queries := by
          simp [monitorLoop, hact]
        rw [hstep] at hq
        refine ih (k + 1)
          (monitorTick env timeout poll_interval t0 k active store finals queries).active
          (monitorTick env timeout poll_interval t0 k active store finals queries).store
          (monitorTick env timeout poll_interval t0 k active store finals queries).finals
          (monitorTick env timeout poll_interval t0 k active store finals queries).queries
          ?_ q hq
        intro p hp
        rcases monitorFold_queries_bound env timeout poll_interval t0 k active
          { active := [], store := store, finals := finals, queries := queries } p hp
          with h1 | h2
        · exact hinv p h1
        · obtain ⟨hpk, hno⟩ := h2
          rw [hpk]
          omega

/-- C6 amended.  The monitor measures elapsed time from its own start
(`start_times` is filled with the entry clock for every record; `created_at`
never enters the loop), so the claim holds with "since its own submission"
replaced by "since the monitor's start": on any tick whose elapsed time
exceeds the timeout, every record still active is recorded as Timeout in the
returned map, written to the store as failed, and removed from the active set
with no status query issued for it; and across the whole run no remote status
query is ever issued on a tick whose elapsed time exceeds the timeout. -/
theorem monitor_timeout_from_monitor_start (env : MonitorEnv)
    (poll_interval timeout t0 : Int) (records store : List DeploymentState)
    (fuel : Nat) :
    (∀ (k : Nat) (active st : List DeploymentState) (fs : List (String × String))
        (qs : List (Nat × String)),
      timeout < (k : Int) * poll_interval →
      monitorTick env timeout poll_interval t0 k active st fs qs =
        { active := [],
          store := active.foldl
            (fun st2 r => update_status_store r.deployment_id "failed" st2) st,
          finals := fs ++ active.map (fun r => (r.deployment_id, "Timeout")),
          queries := qs }) ∧
    (∀ q ∈ (monitor_deployments env poll_interval timeout t0 records store fuel).queries,
      ((q : Nat × String).1 : Int) * poll_interval ≤ timeout) := by
  constructor
  · intro k active st fs qs htime
    exact monitorFold_timeout env timeout poll_interval t0 k htime active
      { active := [], store := st, finals := fs, queries := qs }
  · intro q hq
    exact monitorLoop_queries_bound env timeout poll_interval t0 fuel 0
      (activeInit records) store [] [] (by simp) q hq

/-- Witness for the timeout theorem: at tick 1 with a 30 second poll interval
and a 10 second timeout, the still-active record is timed out, recorded as
failed, dropped from the active set and not queried. -/
theorem monitor_timeout_from_monitor_start_witness :
    monitorTick envAllSucceeded 10 30 0 1 [recOldSubmission] [recOldSubmission] [] [] =
      { active := [],
        store := [recOldSubmission].foldl
          (fun st2 r => update_status_store r.deployment_id "failed" st2)
          [recOldSubmission],
        finals := [] ++ [recOldSubmission].map (fun r => (r.deployment_id, "Timeout")),
        queries := [] } :=
  (monitor_timeout_from_monitor_start envAllSucceeded 30 10 0 [] [] 0).1 1
    [recOldSubmission] [recOldSubmission] [] [] (by decide)

end Neo4jDeploy

namespace Neo4jDeploy

/-- Looking a record up right after the id-keyed upsert finds exactly the
saved record. -/
theorem get_save_same (r : DeploymentState) (store : List DeploymentState) :
    get_deployment_state r.deployment_id (save_deployment_state r store) = some r := by
  unfold get_deployment_state save_deployment_state
  rw [List.find?_append]
  have hnone : (store.filter (fun s : DeploymentState => s.deployment_id != r.deployment_id)).find?
      (fun s : DeploymentState => s.deployment_id == r.deployment_id) = none := by
    apply List.find?_eq_none.mpr
    intro x hx
    have hmem := List.mem_filter.mp hx
    simpa using hmem.2
  rw [hnone]
  simp

/-- A status update on a known id rewrites exactly that record's status, as
observed through the store lookup. -/
theorem get_update_status (deployment_id status : String)
    (store : List DeploymentState) (s0 : DeploymentState)
    (h : get_deployment_state deployment_id store = some s0) :
    get_deployment_state deployment_id
      (update_status_store deployment_id status store) =
      some { s0 with status := status } := by
  have hid : s0.deployment_id = deployment_id := by
    have hp := List.find?_some
      (p := fun s : DeploymentState => s.deployment_id == deployment_id)
      (by simpa [get_deployment_state] using h)
    simpa using hp
  have hupd : update_status_store deployment_id status store =
      save_deployment_state { s0 with status := status } store := by
    simp [update_status_store, update_deployment_status, h]
  rw [hupd]
  have hs := get_save_same { s0 with status := status } store
  simpa [hid] using hs

/-- The Azure CLI false-negative signature recognised at orchestrator.py line
231. -/
def spuriousSignature : String := "The content for this response was already consumed"

/-- Substring test at each suffix of the haystack, used to embed the Python
`needle in haystack` test. -/
def containsFrom (needle : List Char) : List Char → Bool
  | [] => needle.isEmpty
  | c :: rest => needle.isPrefixOf (c :: rest) || containsFrom needle rest

/-- Python `needle in hay` on strings. -/
def strContainsSub (hay needle : String) : Bool :=
  containsFrom needle.data hay.data

/-- Outcomes of the external calls made by submit_deployment: the validation
round-trip (validate_deployment, itself a remote call whose error extraction
is console-only), the `az deployment group create` exit data, and the
re-verification `az deployment group show` exit data. -/
structure SubmitEnv where
  validate_ok : Bool
  create_rc : Int
  create_stderr : String
  verify_rc : Int
  verify_stdout : String

/-- What one submit_deployment call produced: the returned Boolean, the store
after the status writes, and how many re-verification queries were issued. -/
structure SubmitOutcome where
  ret : Bool
  store : List DeploymentState
  verify_queries : Nat
deriving Repr, DecidableEq

/-- DeploymentOrchestrator.submit_deployment (orchestrator.py lines 152-317).
Validation failure marks the record failed and returns false before any create
call.  A zero create exit marks it deploying and returns true.  A nonzero exit
whose stderr carries the known spurious signature triggers exactly one
re-verification query: a zero verify exit with non-blank stdout is treated as
success (deploying, true), anything else as a genuine failure (failed, false).
A nonzero exit without the signature is a genuine failure (its message
categorisation, lines 508-545, is console-only). -/
def submit_deployment (env : SubmitEnv) (store : List DeploymentState)
    (d : DeploymentState) (wait skip_validation : Bool) : SubmitOutcome :=
  if skip_validation = false ∧ env.validate_ok = false then
    { ret := false, store := update_status_store d.deployment_id "failed" store,
      verify_queries := 0 }
  else
    let is_spurious_error := strContainsSub env.create_stderr spuriousSignature
    if env.create_rc = 0 then
      { ret := true, store := update_status_store d.deployment_id "deploying" store,
        verify_queries := 0 }
    else if is_spurious_error then
      if env.verify_rc = 0 ∧ env.verify_stdout.trim ≠ "" then
        { ret := true, store := update_status_store d.deployment_id "deploying" store,
          verify_queries := 1 }
      else
        { ret := false, store := update_status_store d.deployment_id "failed" store,
          verify_queries := 1 }
    else
      { ret := false, store := update_status_store d.deployment_id "failed" store,
        verify_queries := 0 }

/-- C7.  When the create call exits nonzero with the spurious signature (and
validation passed or was skipped), submit issues exactly one re-verification
query; a confirmed operation yields status deploying and a true return, an
unconfirmed one yields status failed and a false return. -/
theorem submit_spurious_reverifies (env : SubmitEnv) (store : List DeploymentState)
    (d : DeploymentState) (wait skip_validation : Bool) (s0 : DeploymentState)
    (hval : skip_validation = true ∨ env.validate_ok = true)
    (hrc : env.create_rc ≠ 0)
    (hsig : strContainsSub env.create_stderr spuriousSignature = true)
    (hs0 : get_deployment_state d.deployment_id store = some s0) :
    (submit_deployment env store d wait skip_validation).verify_queries = 1 ∧
    (env.verify_rc = 0 ∧ env.verify_stdout.trim ≠ "" →
      (submit_deployment env store d wait skip_validation).ret = true ∧
      get_deployment_state d.deployment_id
        (submit_deployment env store d wait skip_validation).store =
        some { s0 with status := "deploying" }) ∧
    (¬ (env.verify_rc = 0 ∧ env.verify_stdout.trim ≠ "") →
      (submit_deployment env store d wait skip_validation).ret = false ∧
      get_deployment_state d.deployment_id
        (submit_deployment env store d wait skip_validation).store =
        some { s0 with status := "failed" }) := by
  have hvalcond : ¬ (skip_validation = false ∧ env.validate_ok = false) := by
    rcases hval with h | h <;> simp [h]
  by_cases hver : env.verify_rc = 0 ∧ env.verify_stdout.trim ≠ ""
  · have hsub : submit_deployment env store d wait skip_validation =
        { ret := true, store := update_status_store d.deployment_id "deploying" store,
          verify_queries := 1 } := by
      simp [submit_deployment, hvalcond, hrc, hsig, hver]
    refine ⟨by rw [hsub], fun _ => ⟨by rw [hsub], ?_⟩, fun hn => absurd hver hn⟩
    rw [hsub]
    exact get_update_status d.deployment_id "deploying" store s0 hs0
  · have hsub : submit_deployment env store d wait skip_validation =
        { ret := false, store := update_status_store d.deployment_id "failed" store,
          verify_queries := 1 } := by
      simp [submit_deployment, hvalcond, hrc, hsig, hver]
    refine ⟨by rw [hsub], fun hv => absurd hv hver, fun _ => ⟨by rw [hsub], ?_⟩⟩
    rw [hsub]
    exact get_update_status d.deployment_id "failed" store s0 hs0

/-- A create call that failed with the spurious Azure CLI signature while the
re-verification confirms the deployment exists. -/
def envSpurious : SubmitEnv :=
  { validate_ok := true
    create_rc := 1
    create_stderr := "ERROR: The content for this response was already consumed"
    verify_rc := 0
    verify_stdout := "neo4j-deploy-standalone-v5-a" }

/-- A pending record as saved just before submission. -/
def recSubmitted : DeploymentState :=
  { recOnSuccessFailed with
    deployment_id := "dep-0040", cleanup_mode := "manual", status := "pending" }

/-- Witness for the spurious-error theorem on a concrete environment whose
stderr carries the signature and whose re-verification succeeds. -/
theorem submit_spurious_reverifies_witness :
    (submit_deployment envSpurious [recSubmitted] recSubmitted false false).verify_queries
        = 1 ∧
    (envSpurious.verify_rc = 0 ∧ envSpurious.verify_stdout.trim ≠ "" →
      (submit_deployment envSpurious [recSubmitted] recSubmitted false false).ret = true ∧
      get_deployment_state recSubmitted.deployment_id
        (submit_deployment envSpurious [recSubmitted] recSubmitted false false).store =
        some { recSubmitted with status := "deploying" }) ∧
    (¬ (envSpurious.verify_rc = 0 ∧ envSpurious.verify_stdout.trim ≠ "") →
      (submit_deployment envSpurious [recSubmitted] recSubmitted false false).ret = false ∧
      get_deployment_state recSubmitted.deployment_id
        (submit_deployment envSpurious [recSubmitted] recSubmitted false false).store =
        some { recSubmitted with status := "failed" }) :=
  submit_spurious_reverifies envSpurious [recSubmitted] recSubmitted false false
    recSubmitted (Or.inr rfl) (by decide) (by decide) rfl

end Neo4jDeploy
